import Mathlib

/-!
Verification development for the stampcoin-platform repository.

We shallowly embed the core of the valuation / minting / ledger / pinning
pipeline:

* `api/pin.js` — the serverless IPFS pinning endpoint: base64-image
  validation (`validateBase64Image`), the multipart filenames built by
  `pinToNFTStorage` / `pinToPinata`, and the request `handler`.  Network
  calls are modelled by passing each provider's outcome
  (`Except message result`) as a parameter; everything that happens
  before/after the awaited call is embedded from the source.
* `server/archive-router.ts` — the `mintNFT` mutation and
  `getCurrencyStats` query, as a step function on an explicit database
  state.  The two `db.insert` calls are modelled as individually
  fallible writes (each either commits its row or throws), mirroring the
  absence of any enclosing transaction in the source.
* The `stamp-archive` service (`createNFTFromStamp`,
  `calculateStampValue`) and the serial allocator are not part of the
  provided sources; where a claim depends on them they are modelled from
  the spec (marked `Modelled from the spec:`).

JS strings are modelled as `List Char`, byte buffers as `List Nat`,
monetary amounts as `ℚ`.
-/

namespace Stampcoin

/-! ## Pin endpoint (`api/pin.js`) -/

/-- `const MAX_FILE_SIZE = 10 * 1024 * 1024; // 10MB` (pin.js line 27). -/
def MAX_FILE_SIZE : Nat := 10 * 1024 * 1024

/-- `const ALLOWED_IMAGE_TYPES = ['image/jpeg', 'image/png', 'image/gif',
'image/webp']` (pin.js line 28). -/
def ALLOWED_IMAGE_TYPES : List (List Char) :=
  ["image/jpeg".data, "image/png".data, "image/gif".data, "image/webp".data]

/-- Value of a base64 alphabet character, `none` for characters outside the
alphabet (Node's lenient decoder skips those). -/
def sextVal (c : Char) : Option Nat :=
  if 'A' ≤ c ∧ c ≤ 'Z' then some (c.toNat - 65)
  else if 'a' ≤ c ∧ c ≤ 'z' then some (c.toNat - 97 + 26)
  else if '0' ≤ c ∧ c ≤ '9' then some (c.toNat - 48 + 52)
  else if c = '+' then some 62
  else if c = '/' then some 63
  else none

/-- Reassemble bytes from 6-bit groups, as `Buffer.from(s, 'base64')` does:
each full group of four sextets yields three bytes, a trailing group of
three yields two, of two yields one, and a single dangling sextet is
dropped. -/
def decodeSextets : List Nat → List Nat
  | a :: b :: c :: d :: rest =>
      (a * 4 + b / 16) :: ((b % 16) * 16 + c / 4) :: ((c % 4) * 64 + d) ::
        decodeSextets rest
  | [a, b, c] => [a * 4 + b / 16, (b % 16) * 16 + c / 4]
  | [a, b] => [a * 4 + b / 16]
  | _ => []

/-- `Buffer.from(base64Content, 'base64')` (pin.js line 57), as a byte
list. -/
def decodeBase64 (l : List Char) : List Nat :=
  decodeSextets (l.filterMap sextVal)

/-- `base64Data.startsWith('data:')` (pin.js line 42). -/
def startsWithData (l : List Char) : Bool :=
  decide (l.take 5 = "data:".data)

/-- The regex match `/^data:([^;]+);base64,(.+)$/` (pin.js line 43),
applied to the part after the `data:` prefix: the MIME group is the
maximal nonempty run of non-`;` characters, followed by the literal
`;base64,`, followed by a nonempty remainder in which `.` never matches a
line terminator. -/
def dataURIMatch (rest : List Char) : Option (List Char × List Char) :=
  let mime := rest.takeWhile (fun c => c ≠ ';')
  let after := rest.drop mime.length
  if mime.isEmpty then none
  else if after.take 8 = ";base64,".data then
    let content := after.drop 8
    if content.isEmpty then none
    else if content.any (fun c => c == '\n' || c == '\r') then none
    else some (mime, content)
  else none

/-- Error kinds of `validateBase64Image`, one per `throw` site
(pin.js lines 35, 45, 53, 59). -/
inductive VErr where
  | invalidData : VErr
  | invalidFormat : VErr
  | unsupportedType : List Char → VErr
  | tooLarge : VErr
deriving DecidableEq, Repr

/-- `function validateBase64Image(base64Data)` (pin.js lines 33–63):
extract the MIME type (defaulting to `image/png` when no `data:` prefix is
present), check it against the allow-list, decode, and check the decoded
size against `MAX_FILE_SIZE`. -/
def validateBase64Image (base64Data : List Char) :
    Except VErr (List Nat × List Char) :=
  if base64Data.isEmpty then .error .invalidData
  else
    let parsed : Except VErr (List Char × List Char) :=
      if startsWithData base64Data then
        match dataURIMatch (base64Data.drop 5) with
        | none => .error .invalidFormat
        | some mc => .ok mc
      else .ok ("image/png".data, base64Data)
    match parsed with
    | .error e => .error e
    | .ok (mimeType, content) =>
      if mimeType ∈ ALLOWED_IMAGE_TYPES then
        let buffer := decodeBase64 content
        if MAX_FILE_SIZE < buffer.length then .error .tooLarge
        else .ok (buffer, mimeType)
      else .error (.unsupportedType mimeType)

/-- `mimeType.split('/')[1]` as it is string-interpolated in the multipart
filename (pin.js lines 87 and 168): the second `/`-separated segment, or
the text `undefined` when the MIME type has no `/` (JS interpolates the
out-of-range index as `undefined`). -/
def mimeExt (mimeType : List Char) : List Char :=
  if '/' ∈ mimeType then
    ((mimeType.dropWhile (fun c => c ≠ '/')).drop 1).takeWhile (fun c => c ≠ '/')
  else "undefined".data

/-- Filename embedded in `pinToNFTStorage`'s multipart header:
`filename="image.${mimeType.split('/')[1]}"` (pin.js line 87).  It is a
fixed name, independent of the caller-supplied `name`. -/
def nftStorageFilename (mimeType : List Char) : List Char :=
  "image.".data ++ mimeExt mimeType

/-- Filename embedded in `pinToPinata`'s multipart header:
`filename="${name}.${mimeType.split('/')[1]}"` (pin.js line 168) — the
caller-supplied `name` is interpolated verbatim. -/
def pinataFilename (name mimeType : List Char) : List Char :=
  name ++ '.' :: mimeExt mimeType

/-- The `Content-Disposition` line `pinToPinata` pushes into the multipart
body (pin.js lines 166–170), showing that the raw filename reaches the
upload header. -/
def pinataDispositionLine (name mimeType : List Char) : List Char :=
  "Content-Disposition: form-data; name=\"file\"; filename=\"".data ++
    pinataFilename name mimeType ++ "\"\r\n".data

/-- Characters the spec's sanitization rule allows in provider filenames:
`[A-Za-z0-9_-]`. -/
def isSafeFilenameChar (c : Char) : Bool :=
  ('A' ≤ c && c ≤ 'Z') || ('a' ≤ c && c ≤ 'z') || ('0' ≤ c && c ≤ '9') ||
    c == '_' || c == '-'

/-! ### The request handler (pin.js lines 252–321)

The two provider calls are `await`ed promises; we model each call's
outcome as an `Except message result` parameter.  Everything the handler
does around those awaits is embedded from the source.  A thrown
validation error or a rejected primary promise lands in the outer
`catch`, which answers `500` with the error message; a rejected secondary
promise is caught locally and embedded into the successful response. -/

/-- Result object resolved by `pinToNFTStorage` (pin.js lines 118–125). -/
structure NFTStorageRes where
  cid : List Char
deriving DecidableEq, Repr

/-- Result object resolved by `pinToPinata` (pin.js lines 223–230). -/
structure PinataRes where
  cid : List Char
deriving DecidableEq, Repr

/-- Parsed JSON request body of `POST /api/pin` (pin.js line 272).
`pinata = true` covers both the boolean and the string `'true'` accepted
by the source. -/
structure PinBody where
  name : List Char
  description : List Char
  imageBase64 : Option (List Char)
  pinata : Bool
deriving DecidableEq, Repr

instance exceptDecEq {ε α : Type} [DecidableEq ε] [DecidableEq α] :
    DecidableEq (Except ε α)
  | .ok a, .ok b =>
      if h : a = b then isTrue (by subst h; rfl)
      else isFalse (fun hh => h (by cases hh; rfl))
  | .ok _, .error _ => isFalse (fun hh => by cases hh)
  | .error _, .ok _ => isFalse (fun hh => by cases hh)
  | .error e, .error f =>
      if h : e = f then isTrue (by subst h; rfl)
      else isFalse (fun hh => h (by cases hh; rfl))

/-- The `pinata` field of a successful response: `none` when the secondary
was never attempted, `some (.ok r)` on secondary success, and
`some (.error msg)` for the caught secondary failure
(`{ success: false, error }`, pin.js lines 305–308). -/
abbrev PinataField := Option (Except (List Char) PinataRes)

/-- Response body: either an error object `{ error }` or a success object
with the NFT.Storage result and the optional Pinata field. -/
inductive RespBody where
  | err : List Char → RespBody
  | success : NFTStorageRes → PinataField → RespBody
deriving DecidableEq, Repr

/-- An HTTP response `res.status(=).json(=)`. -/
structure Resp where
  status : Nat
  body : RespBody
deriving DecidableEq, Repr

/-- Message text of each `validateBase64Image` throw site, as it reaches
the outer catch (interpolated values elided into the kind-specific
prefix). -/
def vErrMsg : VErr → List Char
  | .invalidData => "Invalid image data".data
  | .invalidFormat => "Invalid data URI format".data
  | .unsupportedType m => "Unsupported image type: ".data ++ m
  | .tooLarge => "File size exceeds maximum allowed size of 10MB".data

/-- `export default async function handler(req, res)` (pin.js lines
252–321).  `nftRes` / `pinataRes` are the outcomes of the awaited
`pinToNFTStorage` / `pinToPinata` promises. -/
def handler (method : List Char) (body : PinBody)
    (nftRes : Except (List Char) NFTStorageRes)
    (pinataRes : Except (List Char) PinataRes) : Resp :=
  if method ≠ "POST".data then ⟨405, .err "Method not allowed".data⟩
  else if body.name.isEmpty then ⟨400, .err "Name is required".data⟩
  else if body.description.isEmpty then
    ⟨400, .err "Description is required".data⟩
  else
    match body.imageBase64 with
    | none => ⟨400, .err "Image data is required".data⟩
    | some img =>
      if img.isEmpty then ⟨400, .err "Image data is required".data⟩
      else
        match validateBase64Image img with
        | .error e => ⟨500, .err (vErrMsg e)⟩
        | .ok _ =>
          match nftRes with
          | .error e => ⟨500, .err e⟩
          | .ok r =>
            if body.pinata then
              match pinataRes with
              | .ok pr => ⟨200, .success r (some (.ok pr))⟩
              | .error pe => ⟨200, .success r (some (.error pe))⟩
            else ⟨200, .success r none⟩

/-! ## Mint router (`server/archive-router.ts`)

`mintNFT` (lines 219–269) calls `archiveService.createNFTFromStamp`, then
performs two separate awaited `db.insert`s — one `stampNFT` row, one
`currencyDistribution` row — with no enclosing transaction, and returns
the inserted data.  Any thrown error is logged and rethrown.  We model
the database as an explicit state and each awaited step as an
individually fallible operation: `createRes` is the outcome of
`createNFTFromStamp`, and `insertNftOk` / `insertDistOk` say whether the
corresponding `db.insert` committed its row or threw. -/

/-- A `stampNFT` row as inserted by `mintNFT` (archive-router.ts lines
234–245).  `id` is the auto-increment key; `nftTokenId`, `metadataUri`
and `imageUri` are the source's placeholders. -/
structure NftRow where
  id : Nat
  archiveId : List Char
  serialNumber : List Char
  nftTokenId : List Char
  ownerId : Nat
  ownerAddress : Option (List Char)
  metadataUri : List Char
  imageUri : List Char
deriving DecidableEq, Repr

/-- A `currencyDistribution` row as inserted by `mintNFT`
(archive-router.ts lines 248–255). -/
structure DistRow where
  userId : Nat
  archiveId : List Char
  nftId : Nat
  distributionType : List Char
  amount : ℚ
  status : List Char
deriving DecidableEq, Repr

/-- The singleton `platformCurrency` row (archive-router.ts lines
280–288). -/
structure Ledger where
  totalSupply : ℚ
  circulatingSupply : ℚ
  maxSupply : ℚ
  burnedSupply : ℚ
deriving DecidableEq, Repr

/-- Database state seen by the archive router: the `stampNFT` table, the
`currencyDistribution` table, and the optional `platformCurrency`
singleton. -/
structure Db where
  nfts : List NftRow
  dists : List DistRow
  ledger : Option Ledger
deriving DecidableEq, Repr

/-- The empty database. -/
def Db.empty : Db := ⟨[], [], none⟩

/-- Data returned by `archiveService.createNFTFromStamp` and consumed by
the router (`nftData.serialNumber`, `nftData.stampCoinValue`). -/
structure NftData where
  serialNumber : List Char
  stampCoinValue : ℚ
deriving DecidableEq, Repr

/-- Errors surfaced by the mint path: the AlreadyMinted rejection from the
service, or a store write that threw. -/
inductive MintErr where
  | alreadyMinted : MintErr
  | storeFailure : MintErr
deriving DecidableEq, Repr

/-- Successful `mintNFT` payload (archive-router.ts lines 257–264). -/
structure MintOut where
  nft : NftRow
  stampCoins : ℚ
  serialNumber : List Char
deriving DecidableEq, Repr

/-- `mintNFT` (archive-router.ts lines 226–269) as a step function: on a
service error the caught exception is rethrown with no write; otherwise
the `stampNFT` insert runs, then — whether or not it will be followed by
a successful distribution insert — its row is committed before the
`currencyDistribution` insert runs.  There is no transaction around the
two inserts, and the `platformCurrency` row is never touched. -/
def mintNFT (st : Db) (createRes : Except MintErr NftData)
    (insertNftOk insertDistOk : Bool) (userId : Nat)
    (stampArchiveId : List Char) (walletAddress : Option (List Char)) :
    Except MintErr MintOut × Db :=
  match createRes with
  | .error e => (.error e, st)
  | .ok nftData =>
    if insertNftOk then
      let row : NftRow :=
        { id := st.nfts.length
          archiveId := stampArchiveId
          serialNumber := nftData.serialNumber
          nftTokenId := "0".data
          ownerId := userId
          ownerAddress := walletAddress
          metadataUri := "ipfs://temp".data
          imageUri := "ipfs://temp".data }
      let st1 : Db := { st with nfts := st.nfts ++ [row] }
      if insertDistOk then
        let drow : DistRow :=
          { userId := userId
            archiveId := stampArchiveId
            nftId := row.id
            distributionType := "mint".data
            amount := nftData.stampCoinValue
            status := "completed".data }
        (.ok { nft := row, stampCoins := nftData.stampCoinValue,
               serialNumber := nftData.serialNumber },
         { st1 with dists := st1.dists ++ [drow] })
      else (.error .storeFailure, st1)
    else (.error .storeFailure, st)

/-- The initial `platformCurrency` row created by `getCurrencyStats`
(archive-router.ts lines 280–288). -/
def initialLedger : Ledger :=
  { totalSupply := 0, circulatingSupply := 0, maxSupply := 1000000,
    burnedSupply := 0 }

/-- `getCurrencyStats` (archive-router.ts lines 274–307): returns the
`platformCurrency` singleton, creating it with zero supplies and
`maxSupply = 1000000` when absent. -/
def getCurrencyStats (st : Db) : Ledger × Db :=
  match st.ledger with
  | some l => (l, st)
  | none => (initialLedger, { st with ledger := some initialLedger })

/-- Whether a `stampNFT` row already exists for a catalog item. -/
def hasMintRecord (st : Db) (stampArchiveId : List Char) : Bool :=
  st.nfts.any (fun r => r.archiveId = stampArchiveId)

/-- Modelled from the spec: `archiveService.createNFTFromStamp` lives in
`server/stamp-archive.ts`, which is not among the provided sources.  Per
spec §4.4 step 2 it checks for an existing MintRecord for the catalog
item and fails with `AlreadyMinted` when one is present; otherwise it
returns the computed serial and currency value (taken here as given
data, since valuation/serial computation is modelled separately). -/
def createNFTFromStamp (st : Db) (stampArchiveId : List Char)
    (data : NftData) : Except MintErr NftData :=
  if hasMintRecord st stampArchiveId then .error .alreadyMinted
  else .ok data

/-- One complete mint call for a catalog item with both store writes
succeeding: the router around the spec-modelled service check. -/
def mintOnce (st : Db) (stampArchiveId : List Char) (data : NftData)
    (userId : Nat) : Except MintErr MintOut × Db :=
  mintNFT st (createNFTFromStamp st stampArchiveId data) true true userId
    stampArchiveId none

/-- `n` successive mint calls for the same catalog item; returns the final
state and the number of calls that succeeded. -/
def mintRun (stampArchiveId : List Char) (data : NftData) (userId : Nat) :
    Nat → Db → Db × Nat
  | 0, st => (st, 0)
  | n + 1, st =>
    let (res, st') := mintOnce st stampArchiveId data userId
    let (stFin, k) := mintRun stampArchiveId data userId n st'
    (stFin, (if res.isOk then 1 else 0) + k)

/-- Number of `stampNFT` rows for a given catalog item. -/
def recordCount (st : Db) (stampArchiveId : List Char) : Nat :=
  (st.nfts.filter (fun r => r.archiveId = stampArchiveId)).length

/-- Sum of the amounts of `currencyDistribution` rows with
`status = completed`. -/
def sumCompleted (st : Db) : ℚ :=
  (st.dists.filter (fun d => d.status = "completed".data)).foldr
    (fun d acc => d.amount + acc) 0

/-! ## Pricing engine (spec-modelled)

`archiveService.calculateStampValue` lives in `server/stamp-archive.ts`,
which is not among the provided sources; only its caller
(`calculatePrice`, archive-router.ts lines 179–214) is visible.  The
functions below are modelled from spec §4.1. -/

/-- Modelled from the spec: the fixed rarity multiplier table
{common 1.0, uncommon 1.5, rare 3.0, very_rare 7.0, legendary 15.0}; an
unknown or missing rarity takes the lowest multiplier (1.0). -/
def rarityMultiplier (rarity : List Char) : ℚ :=
  if rarity = "legendary".data then 15
  else if rarity = "very_rare".data then 7
  else if rarity = "rare".data then 3
  else if rarity = "uncommon".data then 3 / 2
  else 1

/-- Modelled from the spec: the fixed condition multiplier table
{mint 1.2, very_fine 1.0, fine 0.8, used 0.5}; an unknown or missing
condition takes the lowest multiplier (0.5). -/
def conditionMultiplier (condition : List Char) : ℚ :=
  if condition = "mint".data then 6 / 5
  else if condition = "very_fine".data then 1
  else if condition = "fine".data then 4 / 5
  else 1 / 2

/-- Rounding to two decimal places. -/
def round2 (q : ℚ) : ℚ := (round (q * 100) : ℤ) / 100

/-- The derived valuation record of spec §3. -/
structure Valuation where
  baseValue : ℚ
  rarityMult : ℚ
  conditionMult : ℚ
  finalValue : ℚ
deriving DecidableEq, Repr

/-- Catalog-item fields consumed by the pricing engine (the metadata the
router builds at archive-router.ts lines 189–199). -/
structure StampMeta where
  denomination : ℚ
  year : Nat
  condition : List Char
  rarity : List Char
deriving DecidableEq, Repr

/-- Modelled from the spec: `calculateStampValue` (spec §4.1 `valuate`),
`baseValue = denomination`, multipliers from the fixed tables,
`finalValue = round2(baseValue * rarityMultiplier * conditionMultiplier)`;
total on all inputs. -/
def calculateStampValue (m : StampMeta) : Valuation :=
  { baseValue := m.denomination
    rarityMult := rarityMultiplier m.rarity
    conditionMult := conditionMultiplier m.condition
    finalValue :=
      round2 (m.denomination * rarityMultiplier m.rarity *
        conditionMultiplier m.condition) }

/-! ## Serial allocator (spec-modelled)

The serial allocation performed inside `createNFTFromStamp` is not among
the provided sources; spec §4.2 specifies `allocate(scopeKey)` as a
single atomic increment of the `SerialCounter` row for the scope,
formatting the serial as the scope key, a hyphen, and the sequence
zero-padded to six digits. -/

/-- State of all `SerialCounter` rows: `nextSequence` per scope key. -/
def Counters : Type := List Char → Nat

/-- `{sequence:06d}`: decimal digits of `n`, left-padded with `'0'` to at
least six characters. -/
def pad6 (n : Nat) : List Char :=
  List.replicate (6 - (Nat.toDigits 10 n).length) '0' ++ Nat.toDigits 10 n

/-- Modelled from the spec: `allocate(scopeKey)` reads the scope's counter
and atomically increments it, returning the serial
`scopeKey ++ "-" ++ pad6 sequence` together with the new counter state. -/
def allocate (scopeKey : List Char) (c : Counters) :
    (List Char × Nat) × Counters :=
  ((scopeKey ++ '-' :: pad6 (c scopeKey), c scopeKey),
   fun k => if k = scopeKey then c scopeKey + 1 else c k)

/-- The sequence numbers handed to `n` successive `allocate` callers for
the same scope key, starting from counter state `c`. -/
def allocSeqs (scopeKey : List Char) (c : Counters) : Nat → List Nat
  | 0 => []
  | n + 1 =>
    let (r, c') := allocate scopeKey c
    r.2 :: allocSeqs scopeKey c' n

/-! ## Claim C1 -/

/-- C1, counterexample.  The claim says the MintRecord insert, the
CurrencyDistribution insert and the ledger increment happen in one atomic
transaction, so that after any failure no MintRecord exists.  In the
source the two inserts are separate awaited statements with no
transaction: here the `currencyDistribution` insert throws, the call
reports failure, yet the `stampNFT` row inserted just before it persists
(and no ledger row was ever touched). -/
theorem c1_counterexample :
    (mintNFT Db.empty (.ok ⟨"US-000001".data, 36⟩) true false 7 "s1".data
        none).1 = .error .storeFailure ∧
    (mintNFT Db.empty (.ok ⟨"US-000001".data, 36⟩) true false 7 "s1".data
        none).2.nfts.length = 1 ∧
    (mintNFT Db.empty (.ok ⟨"US-000001".data, 36⟩) true false 7 "s1".data
        none).2.dists = [] ∧
    (mintNFT Db.empty (.ok ⟨"US-000001".data, 36⟩) true false 7 "s1".data
        none).2.ledger = none := by
  decide

/-- C1 (amended): `mintNFT` performs the `stampNFT` insert and the
`currencyDistribution` insert as two sequential, non-transactional
writes and never touches the `platformCurrency` aggregate.  A service
error or a failure of the first insert leaves the state unchanged; a
failure of the second insert reports an error but leaves the freshly
inserted MintRecord behind; on success both rows are appended. -/
theorem c1_nontransactional_mint (st : Db)
    (createRes : Except MintErr NftData) (userId : Nat) (aid : List Char)
    (w : Option (List Char)) :
    (∀ o1 o2, (mintNFT st createRes o1 o2 userId aid w).2.ledger =
      st.ledger) ∧
    (∀ e, createRes = .error e →
      ∀ o1 o2, mintNFT st createRes o1 o2 userId aid w = (.error e, st)) ∧
    (∀ o2, (mintNFT st createRes false o2 userId aid w).2 = st) ∧
    (∀ d, createRes = .ok d →
      (mintNFT st createRes true false userId aid w).1 =
        .error .storeFailure ∧
      (mintNFT st createRes true false userId aid w).2.nfts.length =
        st.nfts.length + 1 ∧
      (mintNFT st createRes true false userId aid w).2.dists = st.dists) ∧
    (∀ d, createRes = .ok d →
      (mintNFT st createRes true true userId aid w).1.isOk = true ∧
      (mintNFT st createRes true true userId aid w).2.nfts.length =
        st.nfts.length + 1 ∧
      (mintNFT st createRes true true userId aid w).2.dists.length =
        st.dists.length + 1) := by
  refine ⟨?_, ?_, ?_, ?_, ?_⟩
  · intro o1 o2
    cases createRes <;> cases o1 <;> cases o2 <;> simp [mintNFT]
  · rintro e rfl o1 o2
    simp [mintNFT]
  · intro o2
    cases createRes <;> simp [mintNFT]
  · rintro d rfl
    simp [mintNFT, Except.isOk, Except.toBool]
  · rintro d rfl
    simp [mintNFT, Except.isOk, Except.toBool]

/-- C1 witness: the amended characterization evaluated on a concrete
failing distribution insert. -/
theorem c1_nontransactional_mint_witness :
    (mintNFT Db.empty (.ok ⟨"US-000002".data, 36⟩) true false 8 "s2".data
        none).1 = .error .storeFailure ∧
    (mintNFT Db.empty (.ok ⟨"US-000002".data, 36⟩) true false 8 "s2".data
        none).2.nfts.length = Db.empty.nfts.length + 1 ∧
    (mintNFT Db.empty (.ok ⟨"US-000002".data, 36⟩) true false 8 "s2".data
        none).2.dists = Db.empty.dists :=
  (c1_nontransactional_mint Db.empty (.ok ⟨"US-000002".data, 36⟩) 8
    "s2".data none).2.2.2.1 ⟨"US-000002".data, 36⟩ rfl

/-! ## Claim C2 -/

lemma recordCount_eq_zero {st : Db} {aid : List Char}
    (h : hasMintRecord st aid = false) : recordCount st aid = 0 := by
  rw [recordCount, List.length_eq_zero, List.filter_eq_nil_iff]
  simp only [hasMintRecord, List.any_eq_false, decide_eq_true_eq] at h
  intro r hr
  simpa using h r hr

lemma mintOnce_minted {st : Db} {aid : List Char} (data : NftData)
    (u : Nat) (h : hasMintRecord st aid = true) :
    mintOnce st aid data u = (.error .alreadyMinted, st) := by
  simp [mintOnce, createNFTFromStamp, h, mintNFT]

/-- The `stampNFT` row `mintNFT` inserts for a given state and input
(used to spell out `mintOnce`'s result). -/
def mkRow (st : Db) (aid : List Char) (d : NftData) (u : Nat) : NftRow :=
  { id := st.nfts.length, archiveId := aid, serialNumber := d.serialNumber,
    nftTokenId := "0".data, ownerId := u, ownerAddress := none,
    metadataUri := "ipfs://temp".data, imageUri := "ipfs://temp".data }

/-- The `currencyDistribution` row `mintNFT` inserts for a given state and
input. -/
def mkDist (st : Db) (aid : List Char) (d : NftData) (u : Nat) : DistRow :=
  { userId := u, archiveId := aid, nftId := st.nfts.length,
    distributionType := "mint".data, amount := d.stampCoinValue,
    status := "completed".data }

lemma mintOnce_fresh_eq {st : Db} {aid : List Char} (data : NftData)
    (u : Nat) (h : hasMintRecord st aid = false) :
    mintOnce st aid data u =
      (.ok { nft := mkRow st aid data u, stampCoins := data.stampCoinValue,
             serialNumber := data.serialNumber },
       { nfts := st.nfts ++ [mkRow st aid data u],
         dists := st.dists ++ [mkDist st aid data u],
         ledger := st.ledger }) := by
  have hc : createNFTFromStamp st aid data = .ok data := by
    simp [createNFTFromStamp, h]
  simp [mintOnce, hc, mintNFT, mkRow, mkDist]

lemma mintOnce_fresh {st : Db} {aid : List Char} (data : NftData) (u : Nat)
    (h : hasMintRecord st aid = false) :
    (mintOnce st aid data u).1.isOk = true ∧
    hasMintRecord (mintOnce st aid data u).2 aid = true ∧
    recordCount (mintOnce st aid data u).2 aid = recordCount st aid + 1 := by
  rw [mintOnce_fresh_eq data u h]
  refine ⟨rfl, ?_, ?_⟩
  · simp [hasMintRecord, List.any_append, mkRow]
  · simp [recordCount, List.filter_append, mkRow]

lemma mintRun_minted {st : Db} {aid : List Char} (data : NftData) (u : Nat)
    (h : hasMintRecord st aid = true) :
    ∀ n, mintRun aid data u n st = (st, 0) := by
  intro n
  induction n with
  | zero => rfl
  | succ n ih =>
    simp only [mintRun, mintOnce_minted data u h, ih]
    simp [Except.isOk, Except.toBool]

/-- C2: at the catalog-item granularity, at most one MintRecord ever
exists — a mint call against a state that already holds a MintRecord for
the item fails with `AlreadyMinted` and writes nothing, and among any
`n + 1` successive mint calls for the same item starting from a state
without a record, exactly one succeeds and exactly one record exists
afterwards.  (The `AlreadyMinted` check itself is modelled from the spec,
since `createNFTFromStamp` is not among the provided sources.) -/
theorem c2_unique_mint (aid : List Char) :
    (∀ st data u, hasMintRecord st aid = true →
        mintOnce st aid data u = (.error .alreadyMinted, st)) ∧
    (∀ st data u n, hasMintRecord st aid = false →
        (mintRun aid data u (n + 1) st).2 = 1 ∧
        recordCount (mintRun aid data u (n + 1) st).1 aid = 1) := by
  constructor
  · intro st data u h
    exact mintOnce_minted data u h
  · intro st data u n h
    obtain ⟨h1, h2, h3⟩ := mintOnce_fresh data u h
    rcases hEq : mintOnce st aid data u with ⟨res, st'⟩
    rw [hEq] at h1 h2 h3
    simp only [mintRun, hEq, mintRun_minted data u h2 n]
    rw [recordCount_eq_zero h] at h3
    simp [h1, h3]

/-- C2 witness: ten successive mint calls for the same catalog item from
the empty database yield exactly one success and one record. -/
theorem c2_unique_mint_witness :
    (mintRun "item-1".data ⟨"DE-000001".data, 12⟩ 3 10 Db.empty).2 = 1 ∧
    recordCount (mintRun "item-1".data ⟨"DE-000001".data, 12⟩ 3 10
      Db.empty).1 "item-1".data = 1 :=
  (c2_unique_mint "item-1".data).2 Db.empty ⟨"DE-000001".data, 12⟩ 3 9
    (by decide)

/-! ## Claim C3 -/

/-- C3: evaluation of the code at the failing input.  From the initial
ledger created by `getCurrencyStats` (`circulatingSupply = 0`,
`maxSupply = 1000000`), one successful mint distributing 36 StampCoins
leaves a completed distribution sum of 36 while `circulatingSupply`
stays 0, so `circulatingSupply = sum(completed) - sum(burns)` fails; and
a mint distributing 2000000 StampCoins — past `maxSupply` — still
succeeds, because no code path checks or updates the aggregate. -/
theorem c3_ledger_never_credited :
    ((mintOnce (getCurrencyStats Db.empty).2 "s1".data
        ⟨"US-000001".data, 36⟩ 7).1.isOk = true) ∧
    (mintOnce (getCurrencyStats Db.empty).2 "s1".data
        ⟨"US-000001".data, 36⟩ 7).2.ledger = some initialLedger ∧
    initialLedger.circulatingSupply = 0 ∧
    sumCompleted (mintOnce (getCurrencyStats Db.empty).2 "s1".data
        ⟨"US-000001".data, 36⟩ 7).2 = 36 ∧
    (36 : ℚ) ≠ 0 ∧
    ((mintOnce (getCurrencyStats Db.empty).2 "s2".data
        ⟨"US-000002".data, 2000000⟩ 7).1.isOk = true) ∧
    sumCompleted (mintOnce (getCurrencyStats Db.empty).2 "s2".data
        ⟨"US-000002".data, 2000000⟩ 7).2 = 2000000 ∧
    initialLedger.maxSupply < 2000000 := by
  refine ⟨?_, ?_, ?_, ?_, ?_, ?_, ?_, ?_⟩ <;>
    norm_num [mintOnce, mintNFT, createNFTFromStamp, hasMintRecord,
      getCurrencyStats, Db.empty, sumCompleted, initialLedger,
      Except.isOk, Except.toBool]

/-! ## Claim C4 -/

lemma validate_ok_ne_nil {img : List Char} {buf : List Nat}
    {mt : List Char} (hv : validateBase64Image img = .ok (buf, mt)) :
    img ≠ [] := by
  intro h
  subst h
  simp [validateBase64Image] at hv

/-- C4, counterexample.  The claim says a primary-provider failure makes
the enclosing mint return `PinningFailed` with no MintRecord persisted.
In the source the mint endpoint performs no pinning at all (it stores
placeholder `ipfs://temp` URIs), so in a world where the primary pinning
provider rejects every call — making the pin endpoint answer 500 — a
mint still succeeds and a MintRecord exists afterwards. -/
theorem c4_counterexample :
    handler "POST".data ⟨"n".data, "d".data, some "QUJD".data, false⟩
        (.error "NFT.Storage request failed: down".data)
        (.error "down".data) =
      ⟨500, .err "NFT.Storage request failed: down".data⟩ ∧
    (mintOnce Db.empty "c4-item".data ⟨"FR-000001".data, 5⟩ 2).1.isOk =
      true ∧
    (mintOnce Db.empty "c4-item".data
        ⟨"FR-000001".data, 5⟩ 2).2.nfts.length = 1 ∧
    ((mintOnce Db.empty "c4-item".data ⟨"FR-000001".data, 5⟩
        2).2.nfts.map NftRow.metadataUri) = ["ipfs://temp".data] := by
  decide

/-- C4 (amended): when the primary provider (`pinToNFTStorage`) rejects,
the pin endpoint fails entirely — it answers 500 with the provider's
message, never a success — but the mint endpoint is independent of
pinning: it inserts its MintRecord with placeholder URIs regardless of
any provider, so a pinning failure does not prevent minting. -/
theorem c4_primary_failure_blocks_pin_not_mint (nm ds img : List Char)
    (flag : Bool) (buf : List Nat) (mt : List Char) (e : List Char)
    (p : Except (List Char) PinataRes) (hn : nm ≠ []) (hd : ds ≠ [])
    (hv : validateBase64Image img = .ok (buf, mt)) :
    handler "POST".data ⟨nm, ds, some img, flag⟩ (.error e) p =
      ⟨500, .err e⟩ ∧
    (∀ st aid d u, hasMintRecord st aid = false →
      (mintOnce st aid d u).1.isOk = true ∧
      (mintOnce st aid d u).2.nfts = st.nfts ++ [mkRow st aid d u] ∧
      (mkRow st aid d u).metadataUri = "ipfs://temp".data) := by
  constructor
  · have hie : img ≠ [] := validate_ok_ne_nil hv
    simp [handler, List.isEmpty_iff, hn, hd, hie, hv]
  · intro st aid d u h
    rw [mintOnce_fresh_eq d u h]
    exact ⟨rfl, rfl, rfl⟩

/-- C4 witness: the amended statement applied to a concrete failing
primary provider and a concrete fresh mint. -/
theorem c4_primary_failure_witness :
    handler "POST".data ⟨"w4".data, "w4d".data, some "QUJD".data, true⟩
        (.error "down".data) (.error "down".data) =
      ⟨500, .err "down".data⟩ ∧
    (mintOnce Db.empty "w4-item".data ⟨"IT-000001".data, 9⟩ 4).1.isOk =
      true := by
  have h := c4_primary_failure_blocks_pin_not_mint "w4".data "w4d".data
    "QUJD".data true [65, 66, 67] "image/png".data "down".data
    (.error "down".data) (by decide) (by decide) (by decide)
  exact ⟨h.1, (h.2 Db.empty "w4-item".data ⟨"IT-000001".data, 9⟩ 4
    (by decide)).1⟩

/-! ## Claim C5 -/

/-- C5: the secondary (Pinata) pin is best-effort.  When it is not
requested the response carries no Pinata field at all (the "skipped"
shape) and the result is entirely independent of the secondary outcome;
when it is requested and the secondary errors, the endpoint still
answers 200 success with the secondary error embedded in the body; and
the HTTP status never depends on the secondary outcome, so a secondary
failure is never surfaced as an overall pin failure. -/
theorem c5_secondary_best_effort :
    (∀ m body n p₁ p₂, body.pinata = false →
        handler m body n p₁ = handler m body n p₂) ∧
    (∀ m body n p₁ p₂,
        (handler m body n p₁).status = (handler m body n p₂).status) ∧
    (∀ nm ds img buf mt (r : NFTStorageRes)
        (p : Except (List Char) PinataRes), nm ≠ [] → ds ≠ [] →
        validateBase64Image img = .ok (buf, mt) →
        handler "POST".data ⟨nm, ds, some img, false⟩ (.ok r) p =
          ⟨200, .success r none⟩) ∧
    (∀ nm ds img buf mt (r : NFTStorageRes) (e : List Char),
        nm ≠ [] → ds ≠ [] →
        validateBase64Image img = .ok (buf, mt) →
        handler "POST".data ⟨nm, ds, some img, true⟩ (.ok r) (.error e) =
          ⟨200, .success r (some (.error e))⟩) := by
  refine ⟨?_, ?_, ?_, ?_⟩
  · intro m body n p₁ p₂ hflag
    simp [handler, hflag]
  · intro m body n p₁ p₂
    by_cases hm : m = "POST".data
    · by_cases hn : body.name.isEmpty
      · simp [handler, hm, hn]
      · by_cases hd : body.description.isEmpty
        · simp [handler, hm, hn, hd]
        · cases himg : body.imageBase64 with
          | none => simp [handler, hm, hn, hd, himg]
          | some img =>
            by_cases hie : img.isEmpty
            · simp [handler, hm, hn, hd, himg, hie]
            · cases hv : validateBase64Image img with
              | error e => simp [handler, hm, hn, hd, himg, hie, hv]
              | ok v =>
                cases n with
                | error e => simp [handler, hm, hn, hd, himg, hie, hv]
                | ok r =>
                  by_cases hf : body.pinata
                  · cases p₁ <;> cases p₂ <;>
                      simp [handler, hm, hn, hd, himg, hie, hv, hf]
                  · simp [handler, hm, hn, hd, himg, hie, hv, hf]
    · simp [handler, hm]
  · intro nm ds img buf mt r p hn hd hv
    have hie : img ≠ [] := validate_ok_ne_nil hv
    cases p <;> simp [handler, List.isEmpty_iff, hn, hd, hie, hv]
  · intro nm ds img buf mt r e hn hd hv
    have hie : img ≠ [] := validate_ok_ne_nil hv
    simp [handler, List.isEmpty_iff, hn, hd, hie, hv]

/-- C5 witness: the best-effort behaviour evaluated on a concrete
request — secondary not requested, and secondary requested but
failing. -/
theorem c5_secondary_best_effort_witness :
    handler "POST".data ⟨"a".data, "b".data, some "QUJD".data, false⟩
        (.ok ⟨"cid1".data⟩) (.error "x".data) =
      ⟨200, .success ⟨"cid1".data⟩ none⟩ ∧
    handler "POST".data ⟨"a".data, "b".data, some "QUJD".data, true⟩
        (.ok ⟨"cid1".data⟩) (.error "boom".data) =
      ⟨200, .success ⟨"cid1".data⟩ (some (.error "boom".data))⟩ :=
  ⟨c5_secondary_best_effort.2.2.1 "a".data "b".data "QUJD".data
      [65, 66, 67] "image/png".data ⟨"cid1".data⟩ (.error "x".data)
      (by decide) (by decide) (by decide),
   c5_secondary_best_effort.2.2.2 "a".data "b".data "QUJD".data
      [65, 66, 67] "image/png".data ⟨"cid1".data⟩ "boom".data
      (by decide) (by decide) (by decide)⟩

/-! ## Claim C6 -/

lemma sextVal_A : sextVal 'A' = some 0 := by decide

lemma filterMap_sextVal_replicate (n : Nat) :
    (List.replicate n 'A').filterMap sextVal = List.replicate n 0 := by
  induction n with
  | zero => rfl
  | succ n ih =>
    simp only [List.replicate_succ, List.filterMap_cons, sextVal_A, ih]

lemma decodeSextets_replicate_length (k : Nat) :
    (decodeSextets (List.replicate (4 * k) 0)).length = 3 * k := by
  induction k with
  | zero => rfl
  | succ k ih =>
    rw [show 4 * (k + 1) = 4 + 4 * k by ring, List.replicate_add]
    show (decodeSextets
      (0 :: 0 :: 0 :: 0 :: List.replicate (4 * k) 0)).length = 3 * (k + 1)
    simp only [decodeSextets, List.length_cons, ih]
    omega

/-- A syntactically valid base64 payload of 6 990 508 characters, whose
decoded size is 5 242 881 bytes — one byte above 5 MiB. -/
def overFiveMiB : List Char := List.replicate 6990508 'A'

lemma overFiveMiB_decoded_length :
    (decodeBase64 overFiveMiB).length = 5242881 := by
  rw [decodeBase64, overFiveMiB, filterMap_sextVal_replicate,
    show (6990508 : Nat) = 4 * 1747627 by norm_num,
    decodeSextets_replicate_length]

lemma overFiveMiB_not_dataURI : startsWithData overFiveMiB = false := by
  rw [startsWithData, overFiveMiB, List.take_replicate]
  decide

lemma overFiveMiB_not_empty : overFiveMiB.isEmpty = false := rfl

/-- C6, counterexample.  The claim says payloads whose decoded byte
length exceeds the configured maximum of 5 MiB are rejected; the
source's limit is a hardcoded 10 MB (`MAX_FILE_SIZE = 10 * 1024 * 1024`),
so this payload — decoding to 5 MiB + 1 bytes — is accepted by
`validateBase64Image`. -/
theorem c6_counterexample :
    validateBase64Image overFiveMiB =
      .ok (decodeBase64 overFiveMiB, "image/png".data) ∧
    (decodeBase64 overFiveMiB).length = 5242881 ∧
    5 * 1024 * 1024 < (decodeBase64 overFiveMiB).length := by
  have hlen := overFiveMiB_decoded_length
  have hsize : ¬ (MAX_FILE_SIZE < (decodeBase64 overFiveMiB).length) := by
    rw [hlen]; decide
  refine ⟨?_, hlen, by rw [hlen]; norm_num⟩
  have hmem : ("image/png".data ∈ ALLOWED_IMAGE_TYPES) := by decide
  simp only [validateBase64Image, overFiveMiB_not_empty,
    overFiveMiB_not_dataURI, Bool.false_eq_true, if_false, hmem, if_true,
    hsize]

/-- C6 (amended): `validateBase64Image` runs before any provider call and
rejects oversized or non-allow-listed payloads, but the size limit is a
hardcoded 10 MB (`10 * 1024 * 1024` bytes), not a configured 5 MiB:
every accepted payload has decoded length at most `MAX_FILE_SIZE` and an
allow-listed MIME type; a data-URI payload whose declared MIME type is
outside the allow-list is rejected with the `unsupportedType` kind; and
when validation fails the handler's response is independent of both
provider outcomes (no network call is consulted). -/
theorem c6_validation_amended :
    (∀ l buf m, validateBase64Image l = .ok (buf, m) →
        buf.length ≤ MAX_FILE_SIZE ∧ m ∈ ALLOWED_IMAGE_TYPES) ∧
    (∀ rest m c, dataURIMatch rest = some (m, c) →
        m ∉ ALLOWED_IMAGE_TYPES →
        validateBase64Image ("data:".data ++ rest) =
          .error (.unsupportedType m)) ∧
    (∀ mth (nm ds img : List Char) (flag : Bool) e n₁ n₂ p₁ p₂,
        validateBase64Image img = .error e →
        handler mth ⟨nm, ds, some img, flag⟩ n₁ p₁ =
          handler mth ⟨nm, ds, some img, flag⟩ n₂ p₂) := by
  refine ⟨?_, ?_, ?_⟩
  · intro l buf m h
    by_cases hne : l.isEmpty
    · simp [validateBase64Image, hne] at h
    · rw [validateBase64Image] at h
      simp only [hne, Bool.false_eq_true, if_false] at h
      cases hsw : startsWithData l with
      | false =>
        simp only [hsw, Bool.false_eq_true, if_false] at h
        have hmem : ("image/png".data ∈ ALLOWED_IMAGE_TYPES) := by decide
        simp only [hmem, if_true] at h
        split at h
        · cases h
        · rename_i hlt
          rw [Except.ok.injEq, Prod.mk.injEq] at h
          obtain ⟨hb, hm⟩ := h
          subst hb
          subst hm
          exact ⟨Nat.le_of_not_lt hlt, hmem⟩
      | true =>
        simp only [hsw, if_true] at h
        cases hdm : dataURIMatch (l.drop 5) with
        | none => simp only [hdm] at h; cases h
        | some mc =>
          obtain ⟨mi, co⟩ := mc
          simp only [hdm] at h
          by_cases hmem : mi ∈ ALLOWED_IMAGE_TYPES
          · simp only [hmem, if_true] at h
            split at h
            · cases h
            · rename_i hlt
              rw [Except.ok.injEq, Prod.mk.injEq] at h
              obtain ⟨hb, hm⟩ := h
              subst hb
              subst hm
              exact ⟨Nat.le_of_not_lt hlt, hmem⟩
          · simp only [hmem, if_false] at h
            cases h
  · intro rest m c hdm hnm
    have hsw : startsWithData ("data:".data ++ rest) = true := by
      rw [startsWithData,
        show (5 : Nat) = ("data:".data).length from rfl, List.take_left]
      decide
    have hdrop : ("data:".data ++ rest).drop 5 = rest := by
      rw [show (5 : Nat) = ("data:".data).length from rfl, List.drop_left]
    have hne : ("data:".data ++ rest).isEmpty = false := rfl
    rw [validateBase64Image]
    simp only [hne, Bool.false_eq_true, if_false, hsw, if_true, hdrop,
      hdm, hnm, if_false]
  · intro mth nm ds img flag e n₁ n₂ p₁ p₂ hv
    by_cases hm : mth = "POST".data
    · by_cases hn : nm.isEmpty
      · simp [handler, hm, hn]
      · by_cases hd : ds.isEmpty
        · simp [handler, hm, hn, hd]
        · by_cases hie : img.isEmpty
          · simp [handler, hm, hn, hd, hie]
          · simp [handler, hm, hn, hd, hie, hv]
    · simp [handler, hm]

/-- C6 witness: the amended statement applied to a concrete accepted
payload, a concrete disallowed data URI, and a concrete validation
failure with two different provider worlds. -/
theorem c6_validation_amended_witness :
    (([65, 66, 67] : List Nat).length ≤ MAX_FILE_SIZE ∧
      "image/png".data ∈ ALLOWED_IMAGE_TYPES) ∧
    validateBase64Image ("data:".data ++ "text/plain;base64,QQ==".data) =
      .error (.unsupportedType "text/plain".data) ∧
    handler "POST".data
        ⟨"n".data, "d".data, some "data:text/plain;base64,QQ==".data,
          false⟩ (.ok ⟨"c1".data⟩) (.ok ⟨"p1".data⟩) =
      handler "POST".data
        ⟨"n".data, "d".data, some "data:text/plain;base64,QQ==".data,
          false⟩ (.error "x".data) (.error "y".data) :=
  ⟨c6_validation_amended.1 "QUJD".data [65, 66, 67] "image/png".data
      (by decide),
   c6_validation_amended.2.1 "text/plain;base64,QQ==".data
      "text/plain".data "QQ==".data (by decide) (by decide),
   c6_validation_amended.2.2 "POST".data "n".data "d".data
      "data:text/plain;base64,QQ==".data false
      (.unsupportedType "text/plain".data) (.ok ⟨"c1".data⟩)
      (.error "x".data) (.ok ⟨"p1".data⟩) (.error "y".data) (by decide)⟩

/-! ## Claim C7 -/

set_option maxRecDepth 4000 in
/-- C7, counterexample.  The claim says every filename passed to a
provider is the output of a sanitization function restricted to
`[A-Za-z0-9_-]` and length-truncated.  `pinToPinata` interpolates the
caller-supplied `name` verbatim: for `name = "../evil"` the filename
contains `/` and `.`, and a 300-character name yields a 304-character
filename — no character class is enforced and nothing is truncated. -/
theorem c7_counterexample :
    ('/' ∈ pinataFilename "../evil".data "image/png".data) ∧
    isSafeFilenameChar '/' = false ∧
    (pinataFilename (List.replicate 300 'a') "image/png".data).length =
      304 := by
  decide

/-- C7 (amended): `pinToNFTStorage` uses the fixed filename
`image.<subtype>`, which contains no caller input; `pinToPinata` embeds
the caller-supplied `name` verbatim — the filename begins with the raw
`name`, its length grows linearly with the name (no truncation), and the
raw name is spliced into the `Content-Disposition` header line. -/
theorem c7_filename_unsanitized (nm mt : List Char) :
    (pinataFilename nm mt).take nm.length = nm ∧
    (pinataFilename nm mt).length = nm.length + 1 + (mimeExt mt).length ∧
    pinataDispositionLine nm mt =
      "Content-Disposition: form-data; name=\"file\"; filename=\"".data ++
        (nm ++ '.' :: mimeExt mt) ++ "\"\r\n".data ∧
    nftStorageFilename mt = "image.".data ++ mimeExt mt := by
  refine ⟨?_, ?_, rfl, rfl⟩
  · rw [pinataFilename]
    exact List.take_left nm ('.' :: mimeExt mt)
  · simp [pinataFilename]
    omega

/-! ## Claim C8 -/

/-- C8: the valuation is a pure function of the catalog item.
`baseValue` is the denomination, the multipliers come from the fixed
rarity table {common 1, uncommon 1.5, rare 3, very_rare 7, legendary 15}
and condition table {mint 1.2, very_fine 1, fine 0.8, used 0.5}, an
unknown rarity or condition defaults to the lowest multiplier of its
table (1 resp. 0.5) without throwing, the final value is
`round2(base * rarity * condition)`, and the concrete example
{denomination 10, rarity rare, condition mint} values at 36.00.
(`calculateStampValue` is modelled from the spec, since
`stamp-archive.ts` is not among the provided sources.) -/
theorem c8_valuate_correct (m : StampMeta) :
    (calculateStampValue m).baseValue = m.denomination ∧
    (calculateStampValue m).finalValue =
      round2 (m.denomination * rarityMultiplier m.rarity *
        conditionMultiplier m.condition) ∧
    rarityMultiplier "common".data = 1 ∧
    rarityMultiplier "uncommon".data = 3 / 2 ∧
    rarityMultiplier "rare".data = 3 ∧
    rarityMultiplier "very_rare".data = 7 ∧
    rarityMultiplier "legendary".data = 15 ∧
    conditionMultiplier "mint".data = 6 / 5 ∧
    conditionMultiplier "very_fine".data = 1 ∧
    conditionMultiplier "fine".data = 4 / 5 ∧
    conditionMultiplier "used".data = 1 / 2 ∧
    (∀ r, r ≠ "common".data → r ≠ "uncommon".data → r ≠ "rare".data →
      r ≠ "very_rare".data → r ≠ "legendary".data →
      rarityMultiplier r = 1) ∧
    (∀ c, c ≠ "mint".data → c ≠ "very_fine".data → c ≠ "fine".data →
      conditionMultiplier c = 1 / 2) ∧
    (calculateStampValue
      ⟨10, 1950, "mint".data, "rare".data⟩).finalValue = 36 := by
  refine ⟨rfl, rfl, rfl, rfl, rfl, rfl, rfl, rfl, rfl, rfl, rfl,
    ?_, ?_, ?_⟩
  · intro r h1 h2 h3 h4 h5
    simp [rarityMultiplier, h1, h2, h3, h4, h5]
  · intro c h1 h2 h3
    simp [conditionMultiplier, h1, h2, h3]
  · show round2 ((10 : ℚ) * 3 * (6 / 5)) = 36
    norm_num [round2, round_eq]

/-- C8 witness: the default-multiplier clauses of the valuation theorem
applied to concrete unknown rarity and condition strings. -/
theorem c8_valuate_correct_witness :
    rarityMultiplier "zzz-unknown".data = 1 ∧
    conditionMultiplier "poor".data = 1 / 2 :=
  ⟨(c8_valuate_correct ⟨1, 2000, "used".data, "common".data⟩).2.2.2.2.2.2.2.2.2.2.2.1
      "zzz-unknown".data (by decide) (by decide) (by decide) (by decide)
      (by decide),
   (c8_valuate_correct ⟨1, 2000, "used".data, "common".data⟩).2.2.2.2.2.2.2.2.2.2.2.2.1
      "poor".data (by decide) (by decide) (by decide)⟩

/-! ## Claim C9 -/

lemma allocate_bump (scopeKey : List Char) (c : Counters) :
    (allocate scopeKey c).2 scopeKey = c scopeKey + 1 := by
  simp [allocate]

lemma allocSeqs_getD (scopeKey : List Char) :
    ∀ (n i : Nat) (c : Counters), i < n →
      (allocSeqs scopeKey c n).getD i 0 = c scopeKey + i := by
  intro n
  induction n with
  | zero => intro i c h; omega
  | succ n ih =>
    intro i c h
    cases i with
    | zero => rfl
    | succ i =>
      show (allocSeqs scopeKey _ n).getD i 0 = _
      rw [ih i _ (by omega)]
      simp [allocate]
      ring

/-- C9: `allocate` returns the serial
`scopeKey ++ "-" ++ (sequence zero-padded to at least six digits)` while
atomically bumping the scope's counter, so among `n` successive
allocations for the same scope the `i`-th caller receives sequence
`c₀ + i` — all sequences distinct.  (The allocator is modelled from the
spec, since it is not among the provided sources.) -/
theorem c9_allocate_serials (scopeKey : List Char) (c : Counters) :
    ((allocate scopeKey c).1.1 =
      scopeKey ++ '-' :: pad6 ((allocate scopeKey c).1.2)) ∧
    ((allocate scopeKey c).2 scopeKey = c scopeKey + 1) ∧
    (∀ n, 6 ≤ (pad6 n).length) ∧
    (∀ n i, i < n → (allocSeqs scopeKey c n).getD i 0 = c scopeKey + i) ∧
    (∀ n i j, i < n → j < n → i ≠ j →
      (allocSeqs scopeKey c n).getD i 0 ≠
        (allocSeqs scopeKey c n).getD j 0) := by
  refine ⟨rfl, allocate_bump scopeKey c, ?_, ?_, ?_⟩
  · intro n
    simp only [pad6, List.length_append, List.length_replicate]
    omega
  · intro n i h
    exact allocSeqs_getD scopeKey n i c h
  · intro n i j hi hj hij
    rw [allocSeqs_getD scopeKey n i c hi, allocSeqs_getD scopeKey n j c hj]
    omega

/-- C9 witness: five successive allocations from a fresh counter receive
the distinct sequences 2 and 4 at positions 2 and 4. -/
theorem c9_allocate_serials_witness :
    (allocSeqs "US-1950".data (fun _ => 0) 5).getD 2 0 = 2 ∧
    (allocSeqs "US-1950".data (fun _ => 0) 5).getD 2 0 ≠
      (allocSeqs "US-1950".data (fun _ => 0) 5).getD 4 0 :=
  ⟨(c9_allocate_serials "US-1950".data (fun _ => 0)).2.2.2.1 5 2
      (by decide),
   (c9_allocate_serials "US-1950".data (fun _ => 0)).2.2.2.2 5 2 4
      (by decide) (by decide) (by decide)⟩

/-! ## Claim C10 -/

/-- C10: any payload without a `data:` prefix is assumed to be
`image/png`, so it always passes the MIME allow-list check regardless of
its actual content: `validateBase64Image` never returns the
`unsupportedType` rejection for such an input, and whenever it accepts
the input the reported MIME type is `image/png`. -/
theorem c10_no_dataURI_defaults_png (l : List Char)
    (hsw : startsWithData l = false) :
    (∀ m, validateBase64Image l ≠ .error (.unsupportedType m)) ∧
    (∀ buf m, validateBase64Image l = .ok (buf, m) →
      m = "image/png".data) := by
  by_cases hne : l.isEmpty
  · constructor
    · intro m h
      simp [validateBase64Image, hne] at h
    · intro buf m h
      simp [validateBase64Image, hne] at h
  · have hmem : ("image/png".data ∈ ALLOWED_IMAGE_TYPES) := by decide
    constructor
    · intro m h
      rw [validateBase64Image] at h
      simp only [hne, Bool.false_eq_true, if_false, hsw, hmem,
        if_true] at h
      split at h
      · cases h
      · cases h
    · intro buf m h
      rw [validateBase64Image] at h
      simp only [hne, Bool.false_eq_true, if_false, hsw, hmem,
        if_true] at h
      split at h
      · cases h
      · rw [Except.ok.injEq, Prod.mk.injEq] at h
        exact h.2.symm

/-- C10 witness: a plain base64 payload with no `data:` prefix is
accepted as `image/png` and is never rejected for its MIME type. -/
theorem c10_no_dataURI_defaults_png_witness :
    validateBase64Image "QUJD".data ≠
      .error (.unsupportedType "text/plain".data) ∧
    ("image/png".data : List Char) = "image/png".data :=
  ⟨(c10_no_dataURI_defaults_png "QUJD".data (by decide)).1
      "text/plain".data,
   (c10_no_dataURI_defaults_png "QUJD".data (by decide)).2
      [65, 66, 67] "image/png".data (by decide)⟩

end Stampcoin
